import Mathlib

/-!
Shallow embedding of the synchronization and reconciliation engine of the
xbrl-reports-indexes repository, together with proofs settling the frozen
claims about it.  Definitions are transcribed from the Python source:

* `core/data_utils.py`   — feed diff, new-or-modified filings, truncation
* `core/db_utils.py`     — surrogate filing-id assignment
* `core/index_db.py`     — task tracker, feed-update wrapper, duplicate
                           tagger, ESEF catalog diff, `search_filings`
* `model/sec_feeds_model.py` — the `v_duplicate_filing` view
-/

namespace XbrlIdx

/-- Python `str.lower()` (ASCII case folding), written over the character
list.  Unicode-specific folding is not modeled. -/
def str_lower (s : String) : String :=
  String.mk (s.data.map Char.toLower)

/-- Python `str.strip()`: leading and trailing whitespace removed. -/
def str_strip (s : String) : String :=
  String.mk
    (((s.data.dropWhile Char.isWhitespace).reverse.dropWhile
        Char.isWhitespace).reverse)

/-- Python `s.split(sep)` for a one-character separator: every occurrence
splits, empty pieces are kept, and the empty string yields `[""]`. -/
def chars_split (sep : Char) (l : List Char) : List (List Char) :=
  l.foldr
    (fun c acc =>
      if c == sep then [] :: acc
      else
        match acc with
        | h :: t => (c :: h) :: t
        | [] => [[c]])
    [[]]

/-- `s.split(",")`. -/
def str_split_comma (s : String) : List String :=
  (chars_split ',' s.data).map String.mk

/-- Decimal digit-string to number; `none` when empty or non-numeric. -/
def digits_to_nat? (l : List Char) : Option Nat :=
  if l.isEmpty then none
  else
    l.foldl
      (fun acc c =>
        match acc with
        | none => none
        | some n => if c.isDigit then some (n * 10 + (c.toNat - 48)) else none)
      (some 0)

/-- Python `int(s)` on an optionally-signed digit string; `ValueError`
inputs are `none`.  (Underscored and whitespace-padded literals are not
modeled; the engine strips its inputs first.) -/
def str_to_int? (s : String) : Option Int :=
  match s.data with
  | '-' :: rest => (digits_to_nat? rest).map fun n => -(n : Int)
  | l => (digits_to_nat? l).map fun n => (n : Int)

/-- `data_utils.truncate_string`: `str_x[:_n] if len(str_x) > _n else str_x`
with `_n` defaulting to 50 (the slice written over the character list). -/
def truncate_string (s : String) (n : Nat := 50) : String :=
  if s.length > n then String.mk (s.data.take n) else s

/-! ## Feed Diff Engine (`data_utils.get_new_and_modified_feeds`) -/

/-- One remote monthly listing entry: the derived feed identifier
(`SecFeed.feed_id`, an int such as 202201) and its remote last-modified
timestamp (modeled as an integer time value). -/
structure FeedEntry where
  feed_id : Nat
  last_modified_date : Int
deriving DecidableEq, Repr

/-- The classification written into the `new_or_modified` key. -/
inductive NewOrModified where
  | new
  | modified
deriving DecidableEq, Repr

/-- Ordering used by `result.sort(key=feed_id)`. -/
def feedLE (a b : FeedEntry × NewOrModified) : Prop :=
  a.1.feed_id ≤ b.1.feed_id

instance : DecidableRel feedLE := fun a b => Nat.decLe a.1.feed_id b.1.feed_id

instance : IsTotal (FeedEntry × NewOrModified) feedLE :=
  ⟨fun a b => Nat.le_total a.1.feed_id b.1.feed_id⟩

instance : IsTrans (FeedEntry × NewOrModified) feedLE :=
  ⟨fun _ _ _ => Nat.le_trans⟩

/-- `data_utils.get_new_and_modified_feeds`: an entry whose `feed_id` is
absent from `existing_feeds_dict` is appended tagged `new`; one whose id is
present with a remote `last_modified_date` strictly greater than the stored
value is appended tagged `modified`; every other entry is dropped.  The
result is then sorted (stably, as Python's `list.sort`) by `feed_id`.
The stored dict is modeled as a lookup function, `none` meaning
`feed_id not in existing_feeds_dict`. -/
def classify_feed (existing_feeds_dict : Nat → Option Int) (f : FeedEntry) :
    Option (FeedEntry × NewOrModified) :=
  match existing_feeds_dict f.feed_id with
  | none => some (f, NewOrModified.new)
  | some t =>
      if t < f.last_modified_date then some (f, NewOrModified.modified)
      else none

def get_new_and_modified_feeds (existing_feeds_dict : Nat → Option Int)
    (feeds : List FeedEntry) : List (FeedEntry × NewOrModified) :=
  List.insertionSort feedLE (feeds.filterMap (classify_feed existing_feeds_dict))

/-! ## Catalog Diff Engine (`XbrlIndexDB.get_esef_new_filings_new_entities`) -/

/-- `get_esef_new_filings_new_entities`: the downloaded ESEF index maps each
entity LEI to its set of filing keys.  The function returns
`(new_entities, new_filings)`, both computed by plain set difference
against the stored entity LEIs and stored filing keys. -/
def get_esef_new_filings_new_entities (esef_index : List (String × List String))
    (existing_esef_filings existing_esef_entities : Finset String) :
    Finset String × Finset String :=
  let index_entities : Finset String := (esef_index.map Prod.fst).toFinset
  let index_filings : Finset String :=
    ((esef_index.map Prod.snd).flatten).toFinset
  (index_entities \ existing_esef_entities,
   index_filings \ existing_esef_filings)

/-! ## Filing Merge Engine (`db_utils.load_and_prep_feed`,
`db_utils.extract_filings_data_from_rss_items`,
`data_utils.get_new_or_modified_filings`) -/

/-- One parsed RSS item (the fields the merge engine compares and orders by).
Dates are an ordered type `D`. -/
structure RssItem (D : Type) where
  accession_number : String
  enclosure_url : String
  acceptance_datetime : D
  pub_date : D
  cik_number : String
deriving DecidableEq, Repr

/-- The comparison tuple of `get_new_or_modified_filings`:
`(accessionNumber, enclosureUrl, acceptanceDatetime, pubDate, cikNumber)`. -/
def RssItem.tupleOf {D : Type} (i : RssItem D) : String × String × D × D × String :=
  (i.accession_number, i.enclosure_url, i.acceptance_datetime, i.pub_date,
    i.cik_number)

/-- Ordering used by `result.sort(key=lambda x: x.pubDate)`. -/
def pubLE {D : Type} [LinearOrder D] (a b : RssItem D) : Prop :=
  a.pub_date ≤ b.pub_date

instance {D : Type} [LinearOrder D] : DecidableRel (pubLE (D := D)) :=
  fun a b => inferInstanceAs (Decidable (a.pub_date ≤ b.pub_date))

instance {D : Type} [LinearOrder D] : IsTotal (RssItem D) pubLE :=
  ⟨fun a b => le_total a.pub_date b.pub_date⟩

instance {D : Type} [LinearOrder D] : IsTrans (RssItem D) pubLE :=
  ⟨fun _ _ _ => le_trans⟩

/-- The in-place item sort of `data_utils.get_feed_info`:
`rss_items.sort(key=lambda x: x.pubDate)` ("first published first in db").
`load_and_prep_feed` calls `get_feed_info` before id assignment for every
feed kind, and the sort mutates the document's single item list, so every
later reader of `rssItems` sees it in publication-date order. -/
def get_feed_info_items {D : Type} [LinearOrder D]
    (rss_items : List (RssItem D)) : List (RssItem D) :=
  List.insertionSort pubLE rss_items

/-- `data_utils.get_new_or_modified_filings`: for a brand-new dated feed
(neither modified nor the "latest" pseudo-feed) the parsed item list is
returned as is — already in publication-date order, because
`get_feed_info` sorted it in place.  Otherwise the items whose comparison
tuple is not already stored are kept (matching on the accession numbers
of the tuple difference) and the survivors are sorted by publication
date.  The stored rows for the compared feed are modeled as a list of
tuples. -/
def get_new_or_modified_filings {D : Type} [LinearOrder D]
    (is_modified is_latest : Bool)
    (existing_filings : List (String × String × D × D × String))
    (rss_items : List (RssItem D)) : List (RssItem D) :=
  if !is_modified && !is_latest then rss_items
  else
    let new_or_changed_accessions :=
      (rss_items.filter fun i => !(existing_filings.contains i.tupleOf)).map
        RssItem.accession_number
    List.insertionSort pubLE
      (rss_items.filter fun i =>
        new_or_changed_accessions.contains i.accession_number)

/-- The starting surrogate filing id of `load_and_prep_feed`.  The base value
is `int(str(feed_id) + "100001")`; appending the six decimal digits
`"100001"` to the decimal representation of `feed_id` multiplies it by
`10^6` and adds `100001`.  When the feed is modified or is the "latest"
pseudo-feed and a maximum existing `filing_id` for the feed exists in the
store, the start is that maximum plus one. -/
def initial_filing_id (feed_id : Nat) (is_modified is_latest : Bool)
    (last_feed_id : Option Nat) : Nat :=
  let base := feed_id * 10 ^ 6 + 100001
  if is_modified || is_latest then
    match last_feed_id with
    | some m => m + 1
    | none => base
  else base

/-- Literal transcription of the base value `int(str(feed_id) + "100001")`
of `load_and_prep_feed`, kept to check the arithmetic reading of
`initial_filing_id` on concrete inputs. -/
def initial_filing_id_of_str (feed_id : Nat) : Nat :=
  (digits_to_nat? (Nat.toDigits 10 feed_id ++ "100001".data)).getD 0

/-- The id-assignment loop of `extract_filings_data_from_rss_items`:
`filing_id` starts at `initial_filing_id` and is incremented once per
item, in the order the items appear in `new_or_modified_filings`. -/
def assign_filing_ids {D : Type} (filing_id : Nat) :
    List (RssItem D) → List (Nat × RssItem D)
  | [] => []
  | item :: rest => (filing_id, item) :: assign_filing_ids (filing_id + 1) rest

/-- Ordering used by `filings_list.sort(key=lambda x: x[pub_date])`. -/
def idPubLE {D : Type} [LinearOrder D] (a b : Nat × RssItem D) : Prop :=
  a.2.pub_date ≤ b.2.pub_date

instance {D : Type} [LinearOrder D] : DecidableRel (idPubLE (D := D)) :=
  fun a b => inferInstanceAs (Decidable (a.2.pub_date ≤ b.2.pub_date))

instance {D : Type} [LinearOrder D] : IsTotal (Nat × RssItem D) idPubLE :=
  ⟨fun a b => le_total a.2.pub_date b.2.pub_date⟩

instance {D : Type} [LinearOrder D] : IsTrans (Nat × RssItem D) idPubLE :=
  ⟨fun _ _ _ => le_trans⟩

/-- `db_utils.extract_filings_data_from_rss_items` (filing rows only):
assign consecutive surrogate ids starting at `initial_filing_id` in item
order, then sort the resulting rows by publication date (Python's stable
sort). -/
def extract_filings_data_from_rss_items {D : Type} [LinearOrder D]
    (initial_filing_id : Nat) (new_or_modified_filings : List (RssItem D)) :
    List (Nat × RssItem D) :=
  List.insertionSort idPubLE
    (assign_filing_ids initial_filing_id new_or_modified_filings)

/-! ## Duplicate Tagger (`sec_feeds_model.v_duplicate_filing`,
`XbrlIndexDB.detect_and_tag_duplicates`) -/

/-- A `SecFiling` row, reduced to the columns the tagger touches. -/
structure FilingRow where
  filing_id : Nat
  accession_number : String
  duplicate : Bool
deriving DecidableEq, Repr

/-- A `SecFile` row, reduced to the columns the tagger touches. -/
structure FileRow where
  file_id : Nat
  filing_id : Nat
  duplicate : Bool
deriving DecidableEq, Repr

/-- The still-untagged (`duplicate = 0`) filings carrying a given accession
number: the groups of the `v_duplicate_filing` CTE. -/
def untaggedWith (rows : List FilingRow) (a : String) : List FilingRow :=
  rows.filter fun r => !r.duplicate && r.accession_number == a

/-- Membership in the `v_duplicate_filing` view: the CTE groups untagged
filings by accession number and keeps `min(filing_id)` together with the
group size; the view joins back on `filing_id` and keeps the rows of
groups with more than one member.  So a row is in the view iff it is
untagged, its untagged accession group has more than one member, and its
`filing_id` is minimal in that group. -/
def in_v_duplicate_filing (rows : List FilingRow) (r : FilingRow) : Bool :=
  !r.duplicate &&
    decide ((untaggedWith rows r.accession_number).length > 1) &&
    (untaggedWith rows r.accession_number).all fun q =>
      decide (r.filing_id ≤ q.filing_id)

/-- The filing ids returned by querying `v_duplicate_filing`. -/
def v_duplicate_filing (rows : List FilingRow) : List Nat :=
  (rows.filter (in_v_duplicate_filing rows)).map FilingRow.filing_id

/-- `XbrlIndexDB.detect_and_tag_duplicates`: query the view once, then
`UPDATE ... SET duplicate = 1` on the filings whose id is in the view's
result, and the same update on the files whose `filing_id` is in that
list.  No row is deleted. -/
def detect_and_tag_duplicates (rows : List FilingRow) (files : List FileRow) :
    List FilingRow × List FileRow :=
  let dup_ids := v_duplicate_filing rows
  (rows.map fun r =>
      if dup_ids.contains r.filing_id then { r with duplicate := true } else r,
   files.map fun f =>
      if dup_ids.contains f.filing_id then { f with duplicate := true } else f)

/-! ## Task Tracker (`XbrlIndexDB.make_tracker`, `XbrlIndexDB._close_tracker`,
`XbrlIndexDB.update_feeds`) -/

/-- Exceptions the engine raises.  `badSearchParam` carries the message next
to the stable code `ERR_BAD_SEARCH_PARAM`; `keyError`, `valueError` and
`assertionError` model the corresponding uncaught Python exceptions. -/
inductive XErr where
  | existingTaskInProgress
  | noTracker
  | badSearchParam (msg : String)
  | keyError
  | valueError
  | assertionError
  | feedNotLoaded
deriving DecidableEq, Repr

/-- A `TaskTracker` row (columns the claims are about; timestamps and the
autoincremented `task_id` are not modeled).  `is_closed`, `is_completed`
and `is_interrupted` have server default false; `task_notes` is NULL until
written. -/
structure Tracker where
  task_name : String
  process_id : Nat
  task_parameters : String
  is_closed : Bool := false
  is_completed : Bool := false
  is_interrupted : Bool := false
  task_notes : Option String := none
  total_items : Nat := 0
  completed_items : Nat := 0
  successful_items : Nat := 0
  failed_items : Nat := 0
deriving DecidableEq, Repr

/-- The tracker-related store: the `task_tracker` rows (in insertion order)
and the task names stamped into `last_update`. -/
structure TrackerDB where
  trackers : List Tracker
  last_updates : List String
deriving DecidableEq, Repr

/-- The query of `make_tracker`: the first tracker row with the given task
name and `is_closed == false`. -/
def find_open (db : TrackerDB) (task : String) : Option Tracker :=
  db.trackers.find? fun t => t.task_name == task && !t.is_closed

/-- Number of open (`is_closed = false`) tracker rows carrying a task name
in a row list. -/
def openCountOf (l : List Tracker) (task : String) : Nat :=
  (l.filter fun t => t.task_name == task && !t.is_closed).length

/-- Number of open (`is_closed = false`) tracker rows carrying a task name. -/
def openCount (db : TrackerDB) (task : String) : Nat :=
  openCountOf db.trackers task

/-- The explanatory note written when an open tracker with the same task
name already exists (the existing row's `task_id` is not modeled, its
`process_id` is interpolated). -/
def abort_msg (task : String) (pid : Nat) : String :=
  "Aborted: " ++ task ++ " is already running with process id " ++
    toString pid ++ ", closing this task."

/-- `XbrlIndexDB.make_tracker`.  `current` is the engine instance's
`current_task_tracker` slot, modeled as the row index it points at; a call
while it is set raises `ERR_EXISTING_TASK_IN_PROGRESS`.  Otherwise the
store is queried for an open tracker with the same task name; the new
tracker row is created — already closed and interrupted with an
explanatory note when such a row was found — appended to the store, and
`ok_to_continue` is returned together with the new row's index. -/
def make_tracker (task params : String) (pid : Nat) (current : Option Nat)
    (db : TrackerDB) : Except XErr (Bool × Nat × TrackerDB) :=
  if current.isSome then Except.error XErr.existingTaskInProgress
  else
    let t0 : Tracker :=
      { task_name := task, process_id := pid, task_parameters := params }
    match find_open db task with
    | some e =>
        Except.ok (false, db.trackers.length,
          { db with trackers := db.trackers ++
              [{ t0 with
                  is_closed := true
                  is_interrupted := true
                  task_notes := some (abort_msg task e.process_id) }] })
    | none =>
        Except.ok (true, db.trackers.length,
          { db with trackers := db.trackers ++ [t0] })

/-- The note concatenation of `_close_tracker`: `str(notes) + "|"` when the
stored notes are truthy (non-NULL, non-empty), then the truncated new
note. -/
def appended_note (existing : Option String) (note : String) : String :=
  (match existing with
   | some s => if s = "" then "" else s ++ "|"
   | none => "") ++ truncate_string note

/-- `XbrlIndexDB._close_tracker`: asserts a current tracker exists (an
absent one is an `AssertionError`), stamps the closed / completed /
interrupted flags, appends the truncated note when one is given, writes a
`LastUpdate` row for the task name, and clears the instance's current
tracker (the caller's `current` becomes `none`). -/
def close_tracker (is_completed is_interrupted : Bool) (note : Option String)
    (current : Option Nat) (db : TrackerDB) : Except XErr TrackerDB :=
  match current with
  | none => Except.error XErr.assertionError
  | some i =>
      match db.trackers[i]? with
      | none => Except.error XErr.assertionError
      | some t =>
          let t' :=
            { t with
                is_closed := true
                is_completed := is_completed
                is_interrupted := is_interrupted
                task_notes :=
                  match note with
                  | some n => some (appended_note t.task_notes n)
                  | none => t.task_notes }
          Except.ok { trackers := db.trackers.set i t',
                      last_updates := t.task_name :: db.last_updates }

/-- Outcome of a top-level task invocation: the instance's current-tracker
slot, the store, the task's own data, and the exception propagated to the
caller, if any.  Store changes are committed as they happen, so the final
store is reported even when an exception propagates. -/
structure RunResult (σ : Type) where
  current : Option Nat
  db : TrackerDB
  data : σ
  err : Option XErr
deriving Repr

/-- The task name `constants.DB_UPDATE_FEEDS`. -/
def DB_UPDATE_FEEDS : String := "update-feeds"

/-- `XbrlIndexDB.update_feeds`, with the body of its `try` block (listing
fetch, per-feed merge loop, progress-counter updates and logging)
abstracted as `work` on the non-tracker data — the body never touches a
tracker row's `is_closed` flag and never adds or removes tracker rows.
`work` returns the data it committed plus the unexpected error it raised,
if any.  Control flow follows the source: `make_tracker`; on
`ok = false` raise `ERR_NO_TRACKER` (leaving `current` set); otherwise run
the body; an exception is caught and routed through
`_close_tracker(is_completed=False, is_interrupted=True, note=truncate(err))`;
finally the unconditional `self._close_tracker()` after the
`try`/`except` runs — on the failure path the current tracker was already
cleared, so its assertion raises `AssertionError`. -/
def update_feeds {σ : Type} (work : σ → σ × Option String) (pid : Nat)
    (current : Option Nat) (db : TrackerDB) (data : σ) : RunResult σ :=
  match make_tracker DB_UPDATE_FEEDS "" pid current db with
  | Except.error e => ⟨current, db, data, some e⟩
  | Except.ok (ok, tid, db1) =>
      if ok then
        match work data with
        | (data', none) =>
            match close_tracker true false none (some tid) db1 with
            | Except.ok db2 => ⟨none, db2, data', none⟩
            | Except.error e => ⟨some tid, db1, data', some e⟩
        | (data', some errmsg) =>
            match close_tracker false true (some (truncate_string errmsg))
                (some tid) db1 with
            | Except.ok db2 =>
                match close_tracker true false none none db2 with
                | Except.ok db3 => ⟨none, db3, data', none⟩
                | Except.error e => ⟨none, db2, data', some e⟩
            | Except.error e => ⟨some tid, db1, data', some e⟩
      else ⟨some tid, db1, data, some XErr.noTracker⟩

/-! ## Search Composer (`XbrlIndexDB.search_filings`) -/

/-- Schema-routed columns.  The five routing dicts of `search_filings` pick
the schema-specific column for each slot; the remaining cases are the
fixed SEC / ESEF columns referenced directly. -/
inductive SCol where
  | filing_number_col
  | filer_identifier_col
  | filer_name_col
  | pub_date_col
  | report_date_col
  | assigned_sic_col
  | industry_description_col
  | country_col
  | country_name_col
  | form_type_col
  | ticker_col
deriving DecidableEq, Repr

/-- One element of `filter_list`.  `or_like_lower` stores the patterns
already lowercased and stripped (as the list comprehensions build
`"%" + x.lower().strip() + "%"`), and is evaluated as an OR over
case-insensitive substring matches; `lower_col_in` lowercases the column
but, as in the source, not the supplied values. -/
inductive SFilter (D : Type) where
  | date_ge (c : SCol) (d : D)
  | date_lt (c : SCol) (d : D)
  | col_in (c : SCol) (vals : List String)
  | lower_col_in (c : SCol) (vals : List String)
  | sic_in (vals : List Int)
  | or_like_lower (c : SCol) (pats : List String)
deriving DecidableEq, Repr

/-- The warning side effects (`cntlr.addToLog(..., "warning", ...)`) emitted
when a criterion is ignored. -/
inductive SWarning where
  | industry_code_ignored
  | industry_name_ignored
  | industry_code_tree_ignored
  | esef_country_alpha2_ignored
  | esef_country_name_ignored
  | form_type_ignored
  | ticker_ignored
  | random_mssql_ignored
deriving DecidableEq, Repr

/-- The composed query: selected schema, the conjunction of filters
(`query.filter(and_(*filter_list))`), the warnings emitted, whether a
random ordering was applied, and the applied result limit. -/
structure BuiltQuery (D : Type) where
  filing_system : String
  filters : List (SFilter D)
  warnings : List SWarning
  random_order : Bool
  limit : Option Nat
deriving DecidableEq, Repr

/-- The keyword arguments of `search_filings`; `none` is Python `None`.
`limit` defaults to 100. -/
structure SearchParams where
  filing_system : String
  publication_date_from : Option String := none
  publication_date_to : Option String := none
  report_date_from : Option String := none
  report_date_to : Option String := none
  filing_number : Option String := none
  filer_identifier : Option String := none
  industry_code : Option String := none
  industry_code_tree : Option String := none
  industry_name : Option String := none
  form_type : Option String := none
  filer_name : Option String := none
  filer_ticker_symbol : Option String := none
  esef_country_alpha2 : Option String := none
  esef_country_name : Option String := none
  random : Bool := false
  limit : Option Nat := some 100
deriving Repr

/-- `check_date`: the date parameter must parse (the parser,
`dateutil.parser.parse`, is an external collaborator passed in as
`parse_date`); an unparseable value raises `ERR_BAD_SEARCH_PARAM` with the
source's message (the "formate" typo included). -/
def check_date {D : Type} (parse_date : String → Option D) (param : String)
    (param_name : String) : Except XErr D :=
  match parse_date param with
  | some d => Except.ok d
  | none =>
      Except.error (XErr.badSearchParam
        ("param " ++ param_name ++ " must be a valid date in formate 2022-10-21"))

/-- The `{"esef": ..., "sec": ...}[filing_system]` dictionary lookups:
they subscript with the raw `filing_system` value, so any other key —
including a different-cased variant of a supported one — raises
`KeyError`. -/
def schema_lookup : String → Except XErr String
  | "esef" => Except.ok "esef"
  | "sec" => Except.ok "sec"
  | _ => Except.error XErr.keyError

/-- `[x.strip() for x in s.split(",")]`. -/
def split_strip (s : String) : List String :=
  (str_split_comma s).map str_strip

/-- `[x.lower().strip() for x in s.split(",")]`, the pattern list of the
`LIKE` comprehensions. -/
def split_lower_strip (s : String) : List String :=
  (str_split_comma s).map fun x => str_strip (str_lower x)

/-- `[int(x.strip()) for x in s.split(",")]`; a non-numeric component
raises `ValueError`. -/
def parse_int_list (s : String) : Except XErr (List Int) :=
  (str_split_comma s).mapM fun x =>
    match str_to_int? (str_strip x) with
    | some n => Except.ok n
    | none => Except.error XErr.valueError

/-- A date-lower-bound criterion: absent parameter contributes nothing,
present parameter must parse and contributes `col >= parsed`. -/
def date_ge_filter {D : Type} (parse_date : String → Option D) (c : SCol)
    (param_name : String) : Option String → Except XErr (List (SFilter D))
  | none => Except.ok []
  | some s => do
      let d ← check_date parse_date s param_name
      Except.ok [SFilter.date_ge c d]

/-- A date-upper-bound criterion: `col < parsed + timedelta(days=1)`,
the half-open expansion; `add_one_day` is the `+ timedelta(days=1)`. -/
def date_lt_filter {D : Type} (parse_date : String → Option D)
    (add_one_day : D → D) (c : SCol) (param_name : String) :
    Option String → Except XErr (List (SFilter D))
  | none => Except.ok []
  | some s => do
      let d ← check_date parse_date s param_name
      Except.ok [SFilter.date_lt c (add_one_day d)]

/-- `col.in_([x.strip() ...])`. -/
def in_filter {D : Type} (c : SCol) : Option String → List (SFilter D)
  | none => []
  | some s => [SFilter.col_in c (split_strip s)]

/-- `func.lower(col).in_([x.strip() ...])`. -/
def lower_in_filter {D : Type} (c : SCol) : Option String → List (SFilter D)
  | none => []
  | some s => [SFilter.lower_col_in c (split_strip s)]

/-- `or_(*[func.lower(col).like("%" + x.lower().strip() + "%") ...])`. -/
def like_filter {D : Type} (c : SCol) : Option String → List (SFilter D)
  | none => []
  | some s => [SFilter.or_like_lower c (split_lower_strip s)]

/-- The `industry_code` branch: applied only for the SEC schema when
`industry_code_tree` was not supplied; ignored with a warning for ESEF
searches or when `industry_code_tree` has a value. -/
def industry_code_part {D : Type} (fs : String)
    (industry_code industry_code_tree : Option String) :
    Except XErr (List (SFilter D) × List SWarning) :=
  match industry_code with
  | none => Except.ok ([], [])
  | some s =>
      if fs = "sec" && industry_code_tree = none then do
        let vs ← parse_int_list s
        Except.ok ([SFilter.sic_in vs], [])
      else if fs = "esef" || industry_code_tree ≠ none then
        Except.ok ([], [SWarning.industry_code_ignored])
      else Except.ok ([], [])

/-- The guard `industry_code_tree is NotImplemented` of the
`industry_name` branch.  The parameter's declared type is `str | None`, so
an argument is never the `NotImplemented` sentinel and the identity test
is always false. -/
def is_sentinel_not_implemented (_industry_code_tree : Option String) : Bool :=
  false

/-- The `industry_name` branch: the filter is appended only when the schema
is SEC, `industry_code` is absent and `industry_code_tree is
NotImplemented`; the warning fires for ESEF searches or when either
industry-code parameter has a value.  For an SEC search with both code
parameters absent neither branch runs. -/
def industry_name_part {D : Type} (fs : String)
    (industry_code industry_code_tree industry_name : Option String) :
    Except XErr (List (SFilter D) × List SWarning) :=
  match industry_name with
  | none => Except.ok ([], [])
  | some s =>
      if fs = "sec" && industry_code = none &&
          is_sentinel_not_implemented industry_code_tree then
        Except.ok ([SFilter.or_like_lower SCol.industry_description_col
            (split_lower_strip s)], [])
      else if fs = "esef" || industry_code ≠ none ||
          industry_code_tree ≠ none then
        Except.ok ([], [SWarning.industry_name_ignored])
      else Except.ok ([], [])

/-- The `industry_code_tree` branch: for the SEC schema the codes are
parsed and expanded through `get_an_industry_tree` (an external store
query passed in as `industry_tree`), and the filter matches
`assigned_sic` against the expanded code list; for ESEF it is ignored
with a warning. -/
def industry_tree_part {D : Type} (fs : String)
    (industry_tree : List Int → List Int) (industry_code_tree : Option String) :
    Except XErr (List (SFilter D) × List SWarning) :=
  match industry_code_tree with
  | none => Except.ok ([], [])
  | some s =>
      if fs = "sec" then do
        let vs ← parse_int_list s
        Except.ok ([SFilter.sic_in (industry_tree vs)], [])
      else if fs = "esef" then
        Except.ok ([], [SWarning.industry_code_tree_ignored])
      else Except.ok ([], [])

/-- The `esef_country_alpha2` branch. -/
def country_alpha2_part {D : Type} (fs : String) :
    Option String → List (SFilter D) × List SWarning
  | none => ([], [])
  | some s =>
      if fs = "esef" then ([SFilter.col_in SCol.country_col (split_strip s)], [])
      else if fs = "sec" then ([], [SWarning.esef_country_alpha2_ignored])
      else ([], [])

/-- The `esef_country_name` branch: superseded by `esef_country_alpha2`. -/
def country_name_part {D : Type} (fs : String)
    (esef_country_alpha2 : Option String) :
    Option String → List (SFilter D) × List SWarning
  | none => ([], [])
  | some s =>
      if fs = "esef" && esef_country_alpha2 = none then
        ([SFilter.or_like_lower SCol.country_name_col (split_lower_strip s)], [])
      else if fs = "sec" || esef_country_alpha2 ≠ none then
        ([], [SWarning.esef_country_name_ignored])
      else ([], [])

/-- The `form_type` branch: SEC only. -/
def form_type_part {D : Type} (fs : String) :
    Option String → List (SFilter D) × List SWarning
  | none => ([], [])
  | some s =>
      if fs = "sec" then
        ([SFilter.or_like_lower SCol.form_type_col (split_lower_strip s)], [])
      else if fs = "esef" then ([], [SWarning.form_type_ignored])
      else ([], [])

/-- The `filer_ticker_symbol` branch: SEC only. -/
def ticker_part {D : Type} (fs : String) :
    Option String → List (SFilter D) × List SWarning
  | none => ([], [])
  | some s =>
      if fs = "sec" then
        ([SFilter.or_like_lower SCol.ticker_col (split_lower_strip s)], [])
      else if fs = "esef" then ([], [SWarning.ticker_ignored])
      else ([], [])

/-- `if limit:` — Python applies the limit only when it is truthy, so both
`None` and `0` leave the query unlimited. -/
def truthy_limit : Option Nat → Option Nat
  | some 0 => none
  | x => x

/-- The random / limit tail of `search_filings`: random ordering is a no-op
warning on MS SQL; otherwise it is applied and forces a limit of 20 when
none was given. -/
def apply_random_limit (product : String) (random : Bool) (limit : Option Nat) :
    Bool × List SWarning × Option Nat :=
  if random then
    if product = "mssql" then
      (false, [SWarning.random_mssql_ignored], truthy_limit limit)
    else
      (true, [], truthy_limit (if limit = none then some 20 else limit))
  else (false, [], truthy_limit limit)

/-- `XbrlIndexDB.search_filings`, composing the source's branches in order.
`parse_date`, `add_one_day` and `industry_tree` stand for the external
date parser, the one-day `timedelta`, and the recursive industry-tree
store query; `product` is the backend dialect. -/
def search_filings {D : Type} (parse_date : String → Option D)
    (add_one_day : D → D) (industry_tree : List Int → List Int)
    (product : String) (p : SearchParams) : Except XErr (BuiltQuery D) := do
  if ¬(str_lower p.filing_system = "esef" ∨ str_lower p.filing_system = "sec") then
    throw (XErr.badSearchParam "filing_system must be one of `esef` or `sec`")
  let fs ← schema_lookup p.filing_system
  let f1 ← date_ge_filter parse_date SCol.pub_date_col "publication_date_from"
    p.publication_date_from
  let f2 ← date_lt_filter parse_date add_one_day SCol.pub_date_col
    "publication_date_to" p.publication_date_to
  let f3 ← date_ge_filter parse_date SCol.report_date_col "report_date_from"
    p.report_date_from
  let f4 ← date_lt_filter parse_date add_one_day SCol.report_date_col
    "report_date_to" p.report_date_to
  let f5 : List (SFilter D) := in_filter SCol.filing_number_col p.filing_number
  let f6 : List (SFilter D) :=
    lower_in_filter SCol.filer_identifier_col p.filer_identifier
  let (f7, w7) ← industry_code_part (D := D) fs p.industry_code
    p.industry_code_tree
  let (f8, w8) ← industry_name_part (D := D) fs p.industry_code
    p.industry_code_tree p.industry_name
  let (f9, w9) ← industry_tree_part (D := D) fs industry_tree
    p.industry_code_tree
  let (f10, w10) := country_alpha2_part (D := D) fs p.esef_country_alpha2
  let (f11, w11) := country_name_part (D := D) fs p.esef_country_alpha2
    p.esef_country_name
  let (f12, w12) := form_type_part (D := D) fs p.form_type
  let f13 : List (SFilter D) := like_filter SCol.filer_name_col p.filer_name
  let (f14, w14) := ticker_part (D := D) fs p.filer_ticker_symbol
  let (random_order, wr, limit) := apply_random_limit product p.random p.limit
  Except.ok
    { filing_system := fs
      filters := f1 ++ f2 ++ f3 ++ f4 ++ f5 ++ f6 ++ f7 ++ f8 ++ f9 ++ f10 ++
        f11 ++ f12 ++ f13 ++ f14
      warnings := w7 ++ w8 ++ w9 ++ w10 ++ w11 ++ w12 ++ w14 ++ wr
      random_order := random_order
      limit := limit }

/-! ### Evaluation of a composed SEC query on a row -/

/-- `p` starts `s`. -/
def charsStart : List Char → List Char → Bool
  | [], _ => true
  | _ :: _, [] => false
  | a :: as, b :: bs => a == b && charsStart as bs

/-- `p` occurs contiguously inside `s`. -/
def charsContain (p : List Char) : List Char → Bool
  | [] => p.isEmpty
  | c :: rest => charsStart p (c :: rest) || charsContain p rest

/-- `LIKE "%pat%"` on an already-normalized pattern: substring test.
Wildcards inside the user-supplied fragment are not modeled; the claims
exercise plain fragments only. -/
def like_contains (v pat : String) : Bool :=
  charsContain pat.toList v.toList

/-- A `SecFiling` row joined with its ticker mapping and industry
description, reduced to the searched columns. -/
structure SecRow (D : Type) where
  accession_number : String
  cik_number : String
  company_name : String
  form_type : String
  ticker_symbol : String
  industry_description : String
  pub_date : D
  period : D
  assigned_sic : Int
deriving Repr

/-- SEC routing of the string-valued columns (the dict entries marked
"sec" plus the fixed SEC columns).  ESEF-only columns never occur in an
SEC filter list; they default to the empty string. -/
def sec_col_str {D : Type} (r : SecRow D) : SCol → String
  | SCol.filing_number_col => r.accession_number
  | SCol.filer_identifier_col => r.cik_number
  | SCol.filer_name_col => r.company_name
  | SCol.form_type_col => r.form_type
  | SCol.ticker_col => r.ticker_symbol
  | SCol.industry_description_col => r.industry_description
  | _ => ""

/-- SEC routing of the date-valued columns; non-date columns never occur
in a date filter and default to `pub_date`. -/
def sec_col_date {D : Type} (r : SecRow D) : SCol → D
  | SCol.report_date_col => r.period
  | _ => r.pub_date

/-- Whether one filter accepts an SEC row. -/
def eval_sec_filter {D : Type} [LinearOrder D] (r : SecRow D) :
    SFilter D → Bool
  | SFilter.date_ge c d => decide (d ≤ sec_col_date r c)
  | SFilter.date_lt c d => decide (sec_col_date r c < d)
  | SFilter.col_in c vs => vs.contains (sec_col_str r c)
  | SFilter.lower_col_in c vs => vs.contains (str_lower (sec_col_str r c))
  | SFilter.sic_in vs => vs.contains r.assigned_sic
  | SFilter.or_like_lower c pats =>
      pats.any fun pt => like_contains (str_lower (sec_col_str r c)) pt

/-- Whether the composed query accepts an SEC row: the AND of all filters. -/
def eval_sec_query {D : Type} [LinearOrder D] (q : BuiltQuery D)
    (r : SecRow D) : Bool :=
  q.filters.all (eval_sec_filter r)

/-! ## Theorems -/

/-- C6: Catalog diffing is plain set difference: new filing keys are the
discovered keys minus the stored keys and new entity ids the discovered
entity ids minus the stored entity ids; a key already stored is never
reported, so modifications to its content are not detected; on stored
filing keys `{A, B}` and discovered keys `{A, C}` the new filing keys are
exactly `{C}`, symmetrically for entity ids. -/
theorem esef_catalog_set_difference :
    (∀ (esef_index : List (String × List String))
        (exf exe : Finset String) (k : String),
      k ∈ (get_esef_new_filings_new_entities esef_index exf exe).2 ↔
        (∃ p ∈ esef_index, k ∈ p.2) ∧ k ∉ exf) ∧
    (∀ (esef_index : List (String × List String))
        (exf exe : Finset String) (e : String),
      e ∈ (get_esef_new_filings_new_entities esef_index exf exe).1 ↔
        (∃ p ∈ esef_index, p.1 = e) ∧ e ∉ exe) ∧
    (get_esef_new_filings_new_entities [("E1", ["A"]), ("E2", ["C"])]
        {"A", "B"} {"E1"} = ({"E2"}, {"C"})) := by
  refine ⟨fun esef_index exf exe k => ?_, fun esef_index exf exe e => ?_, by decide⟩
  · simp only [get_esef_new_filings_new_entities, Finset.mem_sdiff,
      List.mem_toFinset, List.mem_flatten, List.mem_map]
    constructor
    · rintro ⟨⟨l, ⟨p, hp, rfl⟩, hk⟩, hnot⟩
      exact ⟨⟨p, hp, hk⟩, hnot⟩
    · rintro ⟨⟨p, hp, hk⟩, hnot⟩
      exact ⟨⟨p.2, ⟨p, hp, rfl⟩, hk⟩, hnot⟩
  · simp only [get_esef_new_filings_new_entities, Finset.mem_sdiff,
      List.mem_toFinset, List.mem_map]

theorem classify_feed_eq_some {d : Nat → Option Int} {a f : FeedEntry}
    {tag : NewOrModified} :
    classify_feed d a = some (f, tag) ↔
      a = f ∧ ((d f.feed_id = none ∧ tag = NewOrModified.new) ∨
        (∃ t, d f.feed_id = some t ∧ t < f.last_modified_date ∧
          tag = NewOrModified.modified)) := by
  unfold classify_feed
  rcases hd : d a.feed_id with _ | t
  · simp only [Option.some_inj, Prod.mk.injEq]
    constructor
    · rintro ⟨rfl, rfl⟩
      exact ⟨rfl, Or.inl ⟨hd, rfl⟩⟩
    · rintro ⟨rfl, ⟨_, rfl⟩ | ⟨t, ht, _, _⟩⟩
      · exact ⟨rfl, rfl⟩
      · rw [hd] at ht; cases ht
  · dsimp only
    by_cases hlt : t < a.last_modified_date
    · rw [if_pos hlt]
      simp only [Option.some_inj, Prod.mk.injEq]
      constructor
      · rintro ⟨rfl, rfl⟩
        exact ⟨rfl, Or.inr ⟨t, hd, hlt, rfl⟩⟩
      · rintro ⟨rfl, ⟨hnone, _⟩ | ⟨t', ht', _, rfl⟩⟩
        · rw [hd] at hnone; cases hnone
        · exact ⟨rfl, rfl⟩
    · rw [if_neg hlt]
      constructor
      · rintro h; cases h
      · rintro ⟨rfl, ⟨hnone, _⟩ | ⟨t', ht', hlt', _⟩⟩
        · rw [hd] at hnone; cases hnone
        · rw [hd] at ht'
          cases Option.some_inj.mp ht'
          exact absurd hlt' hlt

/-- C2: The feed diff classifies a remote entry as new iff its feed id is
absent from the stored map, as modified iff the id is present and the
remote last-modified timestamp is strictly greater than the stored one,
drops every other entry, and returns the result sorted by feed id
ascending; on stored `{202201 ↦ t0}` and remote
`[(202201, t0), (202201, t1), (202202, t2)]` with `t0 < t1` it yields
exactly the modified entry 202201 and the new entry 202202, ascending. -/
theorem feed_diff_classification :
    (∀ (d : Nat → Option Int) (feeds : List FeedEntry),
      List.Sorted feedLE (get_new_and_modified_feeds d feeds)) ∧
    (∀ (d : Nat → Option Int) (feeds : List FeedEntry)
        (f : FeedEntry) (tag : NewOrModified),
      (f, tag) ∈ get_new_and_modified_feeds d feeds ↔
        f ∈ feeds ∧
          ((d f.feed_id = none ∧ tag = NewOrModified.new) ∨
           (∃ t, d f.feed_id = some t ∧ t < f.last_modified_date ∧
              tag = NewOrModified.modified))) ∧
    (get_new_and_modified_feeds (fun i => if i = 202201 then some 0 else none)
        [⟨202201, 0⟩, ⟨202201, 1⟩, ⟨202202, 5⟩] =
      [(⟨202201, 1⟩, NewOrModified.modified),
       (⟨202202, 5⟩, NewOrModified.new)]) := by
  refine ⟨fun d feeds => List.sorted_insertionSort feedLE _,
    fun d feeds f tag => ?_, by decide⟩
  rw [get_new_and_modified_feeds,
    (List.perm_insertionSort feedLE _).mem_iff, List.mem_filterMap]
  constructor
  · rintro ⟨a, ha, hg⟩
    obtain ⟨rfl, hcond⟩ := classify_feed_eq_some.mp hg
    exact ⟨ha, hcond⟩
  · rintro ⟨hf, hcond⟩
    exact ⟨f, hf, classify_feed_eq_some.mpr ⟨rfl, hcond⟩⟩

/-- C3 counterexample: for the brand-new feed 202201 the first assigned
surrogate filing id is `int(str(202201) + "100001") = 202201100001`, not
`202201 * 10^6 + 1 = 202201000001` as the claim's formula states.  The
full pipeline (feed-info sort, new-feed item selection, extraction) on a
concrete two-item feed assigns the earliest-published item the id
202201100001 and proceeds consecutively, confirming that only the
formula, not the ordering, is wrong. -/
theorem surrogate_id_counterexample :
    initial_filing_id 202201 false false none = 202201100001 ∧
    initial_filing_id_of_str 202201 = 202201100001 ∧
    (202201100001 : Nat) ≠ 202201 * 10 ^ 6 + 1 ∧
    (extract_filings_data_from_rss_items (D := Nat)
        (initial_filing_id 202201 false false none)
        (get_new_or_modified_filings false false []
          (get_feed_info_items
            [⟨"X", "u1", 0, 5, "c1"⟩, ⟨"Y", "u2", 0, 3, "c2"⟩]))).map
        Prod.fst =
      [202201100001, 202201100002] := by
  refine ⟨rfl, ?_, by decide, by decide⟩
  rfl

/-- C4 counterexample: on two untagged filings sharing accession "A" with
ids 1 and 2, the tagger marks the row with the smallest id (1) as
duplicate and leaves the larger one (2) untagged — the opposite of the
claim's "every row except the one with the smallest surrogate filing id";
the files of the tagged filing get the flag too. -/
theorem duplicate_tagging_counterexample :
    detect_and_tag_duplicates [⟨1, "A", false⟩, ⟨2, "A", false⟩]
        [⟨1001, 1, false⟩, ⟨2001, 2, false⟩] =
      ([⟨1, "A", true⟩, ⟨2, "A", false⟩],
       [⟨1001, 1, true⟩, ⟨2001, 2, false⟩]) ∧
    (detect_and_tag_duplicates [⟨1, "A", false⟩, ⟨2, "A", false⟩]
        [⟨1001, 1, false⟩, ⟨2001, 2, false⟩]).1 ≠
      [⟨1, "A", false⟩, ⟨2, "A", true⟩] := by
  exact ⟨by decide, by decide⟩

/-- C5 counterexample: on three untagged filings sharing accession "A"
(ids 1, 2, 3), one run tags only id 1, and a second run tags id 2 as
well — the second run tags an additional row, so the tagger is not
idempotent on every database state. -/
theorem duplicate_idempotence_counterexample :
    (detect_and_tag_duplicates
        [⟨1, "A", false⟩, ⟨2, "A", false⟩, ⟨3, "A", false⟩] []).1 =
      [⟨1, "A", true⟩, ⟨2, "A", false⟩, ⟨3, "A", false⟩] ∧
    (detect_and_tag_duplicates
        (detect_and_tag_duplicates
          [⟨1, "A", false⟩, ⟨2, "A", false⟩, ⟨3, "A", false⟩] []).1
        (detect_and_tag_duplicates
          [⟨1, "A", false⟩, ⟨2, "A", false⟩, ⟨3, "A", false⟩] []).2).1 =
      [⟨1, "A", true⟩, ⟨2, "A", true⟩, ⟨3, "A", false⟩] ∧
    detect_and_tag_duplicates
        (detect_and_tag_duplicates
          [⟨1, "A", false⟩, ⟨2, "A", false⟩, ⟨3, "A", false⟩] []).1
        (detect_and_tag_duplicates
          [⟨1, "A", false⟩, ⟨2, "A", false⟩, ⟨3, "A", false⟩] []).2 ≠
      detect_and_tag_duplicates
        [⟨1, "A", false⟩, ⟨2, "A", false⟩, ⟨3, "A", false⟩] [] := by
  exact ⟨by decide, by decide, by decide⟩

/-- C9 counterexample: in an SEC search supplying only
`industry_name = "pharma"` (no industry code, no code tree) the composed
query contains no industry filter at all — the guard compares
`industry_code_tree` against the `NotImplemented` sentinel and is never
true — and supplying both `industry_code = "100"` and
`industry_code_tree = "200"` keeps the tree expansion and ignores the
explicit code list with a warning, the reverse of the claimed
precedence. -/
theorem industry_precedence_counterexample :
    search_filings (D := Nat) (fun _ => none) (· + 1) (fun l => l ++ [999])
        "sqlite" { filing_system := "sec", industry_name := some "pharma" } =
      Except.ok
        { filing_system := "sec"
          filters := []
          warnings := []
          random_order := false
          limit := some 100 } ∧
    search_filings (D := Nat) (fun _ => none) (· + 1) (fun l => l ++ [999])
        "sqlite"
        { filing_system := "sec"
          industry_code := some "100"
          industry_code_tree := some "200" } =
      Except.ok
        { filing_system := "sec"
          filters := [SFilter.sic_in [200, 999]]
          warnings := [SWarning.industry_code_ignored]
          random_order := false
          limit := some 100 } := by
  exact ⟨rfl, rfl⟩

/-- C10 counterexample: the value "SEC" is not one of the two supported
schema names, yet `search_filings` does not raise the
bad-search-parameter exception for it: the lowercased validation passes
and the schema dictionary subscript then raises `KeyError`. -/
theorem filing_system_validation_counterexample :
    search_filings (D := Nat) (fun _ => none) (· + 1) (fun l => l) "sqlite"
        { filing_system := "SEC" } = Except.error XErr.keyError ∧
    XErr.keyError ≠
      XErr.badSearchParam "filing_system must be one of `esef` or `sec`" := by
  exact ⟨rfl, by decide⟩

theorem openCountOf_append (l : List Tracker) (t : Tracker) (task : String) :
    openCountOf (l ++ [t]) task =
      openCountOf l task +
        (if t.task_name == task && !t.is_closed then 1 else 0) := by
  rcases hb : (t.task_name == task && !t.is_closed) with _ | _ <;>
    simp [openCountOf, List.filter_append, List.filter_cons, hb]

theorem find_open_eq_none {db : TrackerDB} {task : String} :
    find_open db task = none ↔ openCount db task = 0 := by
  simp [find_open, openCount, openCountOf, List.find?_eq_none,
    List.length_eq_zero, List.filter_eq_nil_iff]

theorem set_concat_length {α : Type} (l : List α) (a b : α) :
    (l ++ [a]).set l.length b = l ++ [b] := by
  induction l with
  | nil => rfl
  | cons x xs ih => simp [List.set, ih]

theorem make_tracker_of_no_open (task params : String) (pid : Nat)
    (db : TrackerDB) (h : find_open db task = none) :
    make_tracker task params pid none db =
      Except.ok (true, db.trackers.length,
        { db with trackers := db.trackers ++
            [{ task_name := task, process_id := pid,
               task_parameters := params }] }) := by
  rw [make_tracker]
  simp only [Option.isSome_none, Bool.false_eq_true, if_false, h]

/-- C1: For every task name, at most one open tracker row exists: when an
open tracker with the same name exists, `make_tracker` returns
`ok = false` and the row it creates is already closed and interrupted
with an explanatory note, so the open count does not grow; when none
exists it inserts an open tracker and returns `true`; the
at-most-one-open invariant is preserved; and after any close of the
created tracker a retry with the same task name succeeds. -/
theorem make_tracker_single_flight (task params : String) (pid : Nat)
    (db : TrackerDB) (ok : Bool) (tid : Nat) (db' : TrackerDB)
    (h : make_tracker task params pid none db = Except.ok (ok, tid, db')) :
    (find_open db task ≠ none →
      ok = false ∧ openCount db' task = openCount db task ∧
      ∃ row, db'.trackers[tid]? = some row ∧ row.is_closed = true ∧
        row.is_interrupted = true ∧ row.task_notes ≠ none) ∧
    (find_open db task = none →
      ok = true ∧ openCount db' task = 1 ∧
      ∃ row, db'.trackers[tid]? = some row ∧ row.is_closed = false ∧
        row.task_name = task) ∧
    (openCount db task ≤ 1 → openCount db' task ≤ 1) ∧
    (∀ (c i : Bool) (n : Option String) (db'' : TrackerDB),
      close_tracker c i n (some tid) db' = Except.ok db'' →
      openCount db task = 0 →
      ∃ tid2 db3, make_tracker task params pid none db'' =
        Except.ok (true, tid2, db3)) := by
  rw [make_tracker] at h
  simp only [Option.isSome_none, Bool.false_eq_true, if_false] at h
  rcases hfo : find_open db task with _ | e <;> rw [hfo] at h <;>
    simp only [Except.ok.injEq, Prod.mk.injEq] at h <;>
    obtain ⟨rfl, rfl, rfl⟩ := h
  · -- no existing open tracker: the new row is open
    have h0 : openCountOf db.trackers task = 0 := find_open_eq_none.mp hfo
    refine ⟨fun hne => absurd rfl hne, fun _ => ⟨rfl, ?_, ?_⟩,
      fun _ => ?_, ?_⟩
    · simp [openCount, openCountOf_append, h0]
    · exact ⟨_, List.getElem?_concat_length _ _, rfl, rfl⟩
    · simp [openCount, openCountOf_append, h0]
    · rintro c i n db'' hcl -
      rw [close_tracker] at hcl
      simp only [List.getElem?_concat_length, Except.ok.injEq] at hcl
      subst hcl
      rw [set_concat_length]
      refine ⟨_, _, make_tracker_of_no_open _ _ _ _ ?_⟩
      refine find_open_eq_none.mpr ?_
      simp [openCount, openCountOf_append, h0]
  · -- an open tracker exists: the new row is created closed and interrupted
    refine ⟨fun _ => ⟨rfl, ?_, ?_⟩, fun heq => Option.noConfusion heq,
      fun h1 => ?_, ?_⟩
    · simp [openCount, openCountOf_append]
    · exact ⟨_, List.getElem?_concat_length _ _, rfl, rfl, by simp⟩
    · simpa [openCount, openCountOf_append] using h1
    · rintro c i n db'' hcl hcount
      exact absurd (find_open_eq_none.mpr hcount) (by simp [hfo])

/-- Witness for C1 at a concrete store: starting on an empty store opens a
tracker, so the open count for the task name is exactly one. -/
theorem make_tracker_single_flight_witness :
    openCount
      { trackers :=
          [{ task_name := "update-feeds"
             process_id := 7
             task_parameters := "" }]
        last_updates := ([] : List String) } "update-feeds" = 1 := by
  have h := make_tracker_single_flight "update-feeds" "" 7 ⟨[], []⟩ true 0
    { trackers :=
        [{ task_name := "update-feeds"
           process_id := 7
           task_parameters := "" }]
      last_updates := ([] : List String) } rfl
  exact (h.2.1 rfl).2.1

theorem truncate_truncate (s : String) (n : Nat) :
    truncate_string (truncate_string s n) n = truncate_string s n := by
  unfold truncate_string
  split
  · rw [if_neg (show ¬(String.mk (s.data.take n)).length > n from by
      simp only [String.length, List.length_take]
      omega)]
  · rfl

theorem make_tracker_of_open (task params : String) (pid : Nat)
    (db : TrackerDB) (e : Tracker) (h : find_open db task = some e) :
    make_tracker task params pid none db =
      Except.ok (false, db.trackers.length,
        { db with trackers := db.trackers ++
            [{ task_name := task, process_id := pid, task_parameters := params,
               is_closed := true, is_interrupted := true,
               task_notes := some (abort_msg task e.process_id) }] }) := by
  rw [make_tracker]
  simp only [Option.isSome_none, Bool.false_eq_true, if_false, h]

/-- C8: Whatever the body of the feed-update task does — succeed or raise —
no open tracker row is left behind: the open counts of every task name
are unchanged by the whole invocation; and when the body raises, the
tracker row this invocation created ends closed with
`is_completed = false`, `is_interrupted = true` and the truncated error
text as its note, while an exception still reaches the caller only after
that close. -/
theorem update_feeds_tracker_closure {σ : Type} (work : σ → σ × Option String)
    (pid : Nat) (db : TrackerDB) (data : σ) :
    (∀ t, openCount (update_feeds work pid none db data).db t =
      openCount db t) ∧
    (find_open db DB_UPDATE_FEEDS = none →
      ∀ (data' : σ) (e : String), work data = (data', some e) →
        (update_feeds work pid none db data).err =
            some XErr.assertionError ∧
        ∃ row,
          (update_feeds work pid none db
              data).db.trackers[db.trackers.length]? = some row ∧
          row.is_closed = true ∧ row.is_completed = false ∧
          row.is_interrupted = true ∧
          row.task_notes = some (truncate_string e)) := by
  rcases hfo : find_open db DB_UPDATE_FEEDS with _ | ex
  · -- no other open tracker: the body runs
    rcases hw : work data with ⟨data', oerr⟩
    cases oerr with
    | none =>
        have hbase :
            update_feeds work pid none db data =
              ⟨none, ⟨db.trackers ++
                  [{ task_name := DB_UPDATE_FEEDS, process_id := pid,
                     task_parameters := "", is_closed := true,
                     is_completed := true, is_interrupted := false }],
                DB_UPDATE_FEEDS :: db.last_updates⟩, data', none⟩ := by
          rw [update_feeds, make_tracker_of_no_open _ _ _ _ hfo]
          simp [hw, close_tracker, List.getElem?_concat_length,
            set_concat_length]
        refine ⟨fun t => by rw [hbase]; simp [openCount, openCountOf_append],
          ?_⟩
        rintro - data'' e hw'
        exact Option.noConfusion (Prod.mk.inj hw').2
    | some e =>
        have hbase :
            update_feeds work pid none db data =
              ⟨none, ⟨db.trackers ++
                  [{ task_name := DB_UPDATE_FEEDS, process_id := pid,
                     task_parameters := "", is_closed := true,
                     is_completed := false, is_interrupted := true,
                     task_notes :=
                       some (truncate_string (truncate_string e)) }],
                DB_UPDATE_FEEDS :: db.last_updates⟩, data',
                some XErr.assertionError⟩ := by
          rw [update_feeds, make_tracker_of_no_open _ _ _ _ hfo]
          simp [hw, close_tracker, List.getElem?_concat_length,
            set_concat_length, appended_note]
        refine ⟨fun t => by rw [hbase]; simp [openCount, openCountOf_append],
          ?_⟩
        rintro - data'' e' hw'
        obtain ⟨h1, h2⟩ := Prod.mk.inj hw'
        obtain rfl := Option.some_inj.mp h2
        rw [hbase]
        exact ⟨rfl, _, List.getElem?_concat_length _ _, rfl, rfl, rfl,
          by rw [truncate_truncate]⟩
  · -- another open tracker: the run aborts with `ERR_NO_TRACKER`
    have hbase :
        update_feeds work pid none db data =
          ⟨some db.trackers.length, ⟨db.trackers ++
              [{ task_name := DB_UPDATE_FEEDS, process_id := pid,
                 task_parameters := "", is_closed := true,
                 is_interrupted := true,
                 task_notes :=
                   some (abort_msg DB_UPDATE_FEEDS ex.process_id) }],
            db.last_updates⟩, data, some XErr.noTracker⟩ := by
      rw [update_feeds, make_tracker_of_open _ _ _ _ _ hfo]
      rfl
    refine ⟨fun t => ?_, fun heq => absurd heq (by simp [hfo])⟩

    rw [hbase]
    simp [openCount, openCountOf_append]

/-- Witness for C8 at a concrete invocation: a body that raises "boom" on
an empty store still propagates an exception only after the tracker row
is closed as interrupted, so the result carries the assertion error. -/
theorem update_feeds_tracker_closure_witness :
    (update_feeds (fun n : Nat => (n + 1, some "boom")) 7 none ⟨[], []⟩ 0).err =
      some XErr.assertionError := by
  have h := update_feeds_tracker_closure (fun n : Nat => (n + 1, some "boom"))
    7 ⟨[], []⟩ 0
  exact (h.2 rfl 1 "boom" rfl).1

/-- C7: All supplied criteria are ANDed; a comma-separated criterion is
split and its values ORed case-insensitively for free-text fields; date
criteria become half-open intervals (`col >= from`, `col < to + 1 day`);
an unparseable date raises the bad-search-parameter exception.  The
example: `filer_name = "acme,globex"` with
`publication_date_from = "2022-01-01"` composes to
(name contains "acme" OR "globex") AND (pub_date >= parsed from-date). -/
theorem search_and_or_composition {D : Type} [LinearOrder D]
    (parse_date : String → Option D) (add_one_day : D → D)
    (industry_tree : List Int → List Int) (d0 d1 : D) (bad : String)
    (h0 : parse_date "2022-01-01" = some d0)
    (h1 : parse_date "2022-03-05" = some d1)
    (hbad : parse_date bad = none) :
    (search_filings parse_date add_one_day industry_tree "sqlite"
        { filing_system := "sec"
          publication_date_from := some "2022-01-01"
          filer_name := some "acme,globex" } =
      Except.ok
        { filing_system := "sec"
          filters := [SFilter.date_ge SCol.pub_date_col d0,
            SFilter.or_like_lower SCol.filer_name_col ["acme", "globex"]]
          warnings := []
          random_order := false
          limit := some 100 }) ∧
    (∀ r : SecRow D,
      eval_sec_query
        { filing_system := "sec"
          filters := [SFilter.date_ge SCol.pub_date_col d0,
            SFilter.or_like_lower SCol.filer_name_col ["acme", "globex"]]
          warnings := []
          random_order := false
          limit := some 100 } r =
        (decide (d0 ≤ r.pub_date) &&
          (like_contains (str_lower r.company_name) "acme" ||
            like_contains (str_lower r.company_name) "globex"))) ∧
    (search_filings parse_date add_one_day industry_tree "sqlite"
        { filing_system := "sec"
          publication_date_to := some "2022-03-05" } =
      Except.ok
        { filing_system := "sec"
          filters := [SFilter.date_lt SCol.pub_date_col (add_one_day d1)]
          warnings := []
          random_order := false
          limit := some 100 }) ∧
    (∀ r : SecRow D,
      eval_sec_query
        { filing_system := "sec"
          filters := [SFilter.date_lt SCol.pub_date_col (add_one_day d1)]
          warnings := []
          random_order := false
          limit := some 100 } r = decide (r.pub_date < add_one_day d1)) ∧
    (search_filings parse_date add_one_day industry_tree "sqlite"
        { filing_system := "sec"
          publication_date_from := some bad } =
      Except.error (XErr.badSearchParam
        "param publication_date_from must be a valid date in formate 2022-10-21")) := by
  refine ⟨?_, fun r => ?_, ?_, fun r => ?_, ?_⟩
  · simp [search_filings, date_ge_filter, date_lt_filter, check_date, h0,
      in_filter, lower_in_filter, industry_code_part, industry_name_part,
      industry_tree_part, country_alpha2_part, country_name_part,
      form_type_part, like_filter, ticker_part, apply_random_limit,
      schema_lookup, truthy_limit, split_lower_strip, str_split_comma,
      chars_split, str_strip, str_lower]
    rfl
  · simp [eval_sec_query, eval_sec_filter, sec_col_str, sec_col_date]
  · simp [search_filings, date_ge_filter, date_lt_filter, check_date, h1,
      in_filter, lower_in_filter, industry_code_part, industry_name_part,
      industry_tree_part, country_alpha2_part, country_name_part,
      form_type_part, like_filter, ticker_part, apply_random_limit,
      schema_lookup, truthy_limit, split_lower_strip, str_split_comma,
      chars_split, str_strip, str_lower]
    rfl
  · simp [eval_sec_query, eval_sec_filter, sec_col_str, sec_col_date]
  · simp [search_filings, date_ge_filter, date_lt_filter, check_date, hbad,
      in_filter, lower_in_filter, industry_code_part, industry_name_part,
      industry_tree_part, country_alpha2_part, country_name_part,
      form_type_part, like_filter, ticker_part, apply_random_limit,
      schema_lookup, truthy_limit, str_lower]
    rfl

theorem assign_filing_ids_map_fst {D : Type} (start : Nat)
    (items : List (RssItem D)) :
    (assign_filing_ids start items).map Prod.fst =
      List.range' start items.length := by
  induction items generalizing start with
  | nil => rfl
  | cons x xs ih => simp [assign_filing_ids, List.range'_succ, ih]

theorem mem_assign_snd {D : Type} {p : Nat × RssItem D} {s : Nat}
    {items : List (RssItem D)} (h : p ∈ assign_filing_ids s items) :
    p.2 ∈ items := by
  induction items generalizing s with
  | nil => cases h
  | cons x xs ih =>
      rcases List.mem_cons.mp h with h | h
      · rw [h]
        simp
      · exact List.mem_cons_of_mem _ (ih h)

theorem sorted_assign_filing_ids {D : Type} [LinearOrder D] (s : Nat)
    {items : List (RssItem D)} (h : List.Sorted pubLE items) :
    List.Sorted idPubLE (assign_filing_ids s items) := by
  induction items generalizing s with
  | nil => exact List.sorted_nil
  | cons x xs ih =>
      rw [List.sorted_cons] at h
      rw [assign_filing_ids, List.sorted_cons]
      exact ⟨fun p hp => h.1 p.2 (mem_assign_snd hp), ih _ h.2⟩

/-- C3 amended: the first surrogate filing id of a brand-new feed is
`int(str(feed_id) + "100001") = feed_id * 10^6 + 100001` (the claim's
`period_id * 10^6 + 1` is off by 100000); for a modified feed with
stored filings it is `1 + max(existing filing_id)`; and — as the claim
states — the feed's filings receive consecutive ids from that starting
value in ascending publication-date order, for every feed kind:
`get_feed_info` sorts the item list by publication date in place before
`get_new_or_modified_filings` reads it, so the extraction's sort is the
identity and ids run `start, start + 1, ...` along publication dates. -/
theorem surrogate_id_amended {D : Type} [LinearOrder D]
    (feed_id mx start : Nat) (is_modified is_latest : Bool)
    (rss : List (RssItem D))
    (existing : List (String × String × D × D × String)) :
    (initial_filing_id feed_id false false none =
      feed_id * 10 ^ 6 + 100001) ∧
    (initial_filing_id feed_id true false (some mx) = mx + 1) ∧
    List.Sorted pubLE (get_new_or_modified_filings is_modified is_latest
      existing (get_feed_info_items rss)) ∧
    (extract_filings_data_from_rss_items start
        (get_new_or_modified_filings is_modified is_latest existing
          (get_feed_info_items rss)) =
      assign_filing_ids start
        (get_new_or_modified_filings is_modified is_latest existing
          (get_feed_info_items rss))) ∧
    ((extract_filings_data_from_rss_items start
        (get_new_or_modified_filings is_modified is_latest existing
          (get_feed_info_items rss))).map Prod.fst =
      List.range' start
        (get_new_or_modified_filings is_modified is_latest existing
          (get_feed_info_items rss)).length) := by
  have hsorted : List.Sorted pubLE (get_new_or_modified_filings is_modified
      is_latest existing (get_feed_info_items rss)) := by
    rw [get_new_or_modified_filings]
    split
    · exact List.sorted_insertionSort pubLE rss
    · exact List.sorted_insertionSort pubLE _
  have hext : extract_filings_data_from_rss_items start
      (get_new_or_modified_filings is_modified is_latest existing
        (get_feed_info_items rss)) =
      assign_filing_ids start
        (get_new_or_modified_filings is_modified is_latest existing
          (get_feed_info_items rss)) :=
    List.Sorted.insertionSort_eq (sorted_assign_filing_ids start hsorted)
  refine ⟨rfl, rfl, hsorted, hext, ?_⟩
  rw [hext]
  exact assign_filing_ids_map_fst start _

theorem in_v_duplicate_filing_iff {rows : List FilingRow} {r : FilingRow} :
    in_v_duplicate_filing rows r = true ↔
      r.duplicate = false ∧
        1 < (untaggedWith rows r.accession_number).length ∧
        ∀ q ∈ untaggedWith rows r.accession_number,
          r.filing_id ≤ q.filing_id := by
  simp only [in_v_duplicate_filing, Bool.and_eq_true, Bool.not_eq_true',
    decide_eq_true_eq, List.all_eq_true]
  exact and_assoc

theorem mem_v_duplicate_filing {rows : List FilingRow} {r : FilingRow}
    (hnd : (rows.map FilingRow.filing_id).Nodup) (hr : r ∈ rows) :
    r.filing_id ∈ v_duplicate_filing rows ↔
      in_v_duplicate_filing rows r = true := by
  simp only [v_duplicate_filing, List.mem_map, List.mem_filter]
  constructor
  · rintro ⟨q, ⟨hq, hqv⟩, hid⟩
    have hqr : q = r := List.inj_on_of_nodup_map hnd hq hr hid
    rwa [hqr] at hqv
  · intro hv
    exact ⟨r, ⟨hr, hv⟩, rfl⟩

/-- C4 amended: among still-untagged filings grouped by accession number,
in every group with more than one member the row with the **smallest**
surrogate id is marked `duplicate = 1` by one tagger run (the larger ids
are left for later runs); the flag is propagated to the `File` rows of
the tagged filings; and no filing or file row is deleted — lengths and
the key columns of every row are unchanged. -/
theorem duplicate_tagging_amended (rows : List FilingRow)
    (files : List FileRow)
    (hnd : (rows.map FilingRow.filing_id).Nodup) :
    ((detect_and_tag_duplicates rows files).1.length = rows.length) ∧
    ((detect_and_tag_duplicates rows files).2.length = files.length) ∧
    (∀ i : Nat, ((detect_and_tag_duplicates rows files).1[i]?).map
        (fun r => (r.filing_id, r.accession_number)) =
      (rows[i]?).map (fun r => (r.filing_id, r.accession_number))) ∧
    (∀ (i : Nat) (r r' : FilingRow), rows[i]? = some r →
      (detect_and_tag_duplicates rows files).1[i]? = some r' →
      (r'.duplicate = true ↔ (r.duplicate = true ∨
        (1 < (untaggedWith rows r.accession_number).length ∧
          ∀ q ∈ untaggedWith rows r.accession_number,
            r.filing_id ≤ q.filing_id)))) ∧
    (∀ (j : Nat) (f f' : FileRow), files[j]? = some f →
      (detect_and_tag_duplicates rows files).2[j]? = some f' →
      (f'.duplicate = true ↔ (f.duplicate = true ∨
        f.filing_id ∈ v_duplicate_filing rows))) := by
  refine ⟨by simp [detect_and_tag_duplicates],
    by simp [detect_and_tag_duplicates], fun i => ?_, fun i r r' hr hr' => ?_,
    fun j f f' hf hf' => ?_⟩
  · simp only [detect_and_tag_duplicates, List.getElem?_map]
    cases h : rows[i]?
    · rfl
    · simp only [Option.map_some']
      split <;> rfl
  · rw [detect_and_tag_duplicates] at hr'
    simp only [List.getElem?_map, hr, Option.map_some', Option.some_inj] at hr'
    have hmem : r ∈ rows := List.getElem?_mem hr
    by_cases hc : (v_duplicate_filing rows).contains r.filing_id = true
    · rw [if_pos hc] at hr'
      have hin : in_v_duplicate_filing rows r = true :=
        (mem_v_duplicate_filing hnd hmem).mp (List.elem_iff.mp hc)
      obtain ⟨hdup, hcount, hmin⟩ := in_v_duplicate_filing_iff.mp hin
      rw [← hr']
      simp only [true_iff]
      exact Or.inr ⟨hcount, hmin⟩
    · rw [if_neg hc] at hr'
      rw [← hr']
      constructor
      · exact Or.inl
      · rintro (hd | ⟨hcount, hmin⟩)
        · exact hd
        · by_contra hnd'
          have hdup : r.duplicate = false := by
            cases hdupv : r.duplicate
            · rfl
            · exact absurd hdupv hnd'
          have hin : in_v_duplicate_filing rows r = true :=
            in_v_duplicate_filing_iff.mpr ⟨hdup, hcount, hmin⟩
          exact hc (List.elem_iff.mpr
            ((mem_v_duplicate_filing hnd hmem).mpr hin))
  · rw [detect_and_tag_duplicates] at hf'
    simp only [List.getElem?_map, hf, Option.map_some', Option.some_inj] at hf'
    by_cases hc : (v_duplicate_filing rows).contains f.filing_id = true
    · rw [if_pos hc] at hf'
      rw [← hf']
      simp only [true_iff]
      exact Or.inr (List.elem_iff.mp hc)
    · rw [if_neg hc] at hf'
      rw [← hf']
      constructor
      · exact Or.inl
      · rintro (hd | hv)
        · exact hd
        · exact absurd (List.elem_iff.mpr hv) hc

/-- Witness for C4 at a concrete store: two untagged filings share
accession "A"; the run preserves the row count, and on the first row (the
minimum id) the tagging condition evaluates to tagged. -/
theorem duplicate_tagging_amended_witness :
    (List.map FilingRow.filing_id
      [⟨1, "A", false⟩, ⟨2, "A", false⟩]).Nodup ∧
    (detect_and_tag_duplicates [⟨1, "A", false⟩, ⟨2, "A", false⟩]
        [⟨1001, 1, false⟩, ⟨2001, 2, false⟩]).1.length = 2 :=
  ⟨by decide,
    (duplicate_tagging_amended [⟨1, "A", false⟩, ⟨2, "A", false⟩]
      [⟨1001, 1, false⟩, ⟨2001, 2, false⟩] (by decide)).1⟩

theorem untagged_map_tag (l : List FilingRow) (ids : List Nat) (a : String) :
    untaggedWith
        (l.map fun r =>
          if ids.contains r.filing_id = true then { r with duplicate := true }
          else r) a =
      (untaggedWith l a).filter fun r => !ids.contains r.filing_id := by
  induction l with
  | nil => rfl
  | cons x xs ih =>
      by_cases hc : x.filing_id ∈ ids <;>
        by_cases hp : (!x.duplicate && x.accession_number == a) = true <;>
          simp [untaggedWith, List.filter_cons, hc, hp] at ih ⊢ <;>
            simp [ih]

theorem exists_min_filing (l : List FilingRow) (hne : l ≠ []) :
    ∃ m ∈ l, ∀ q ∈ l, m.filing_id ≤ q.filing_id := by
  induction l with
  | nil => exact absurd rfl hne
  | cons x xs ih =>
      rcases eq_or_ne xs [] with rfl | hxs
      · exact ⟨x, by simp, by simp⟩
      · obtain ⟨m, hm, hmin⟩ := ih hxs
        by_cases hle : x.filing_id ≤ m.filing_id
        · refine ⟨x, by simp, fun q hq => ?_⟩
          rcases List.mem_cons.mp hq with rfl | hq'
          · exact le_refl _
          · exact le_trans hle (hmin q hq')
        · refine ⟨m, List.mem_cons_of_mem _ hm, fun q hq => ?_⟩
          rcases List.mem_cons.mp hq with rfl | hq'
          · exact le_of_not_le hle
          · exact hmin q hq'

theorem min_of_group_tagged (rows : List FilingRow) (a : String)
    (hgt : 1 < (untaggedWith rows a).length) :
    ∃ m ∈ untaggedWith rows a,
      (v_duplicate_filing rows).contains m.filing_id = true := by
  have hne : untaggedWith rows a ≠ [] := by
    intro hnil
    rw [hnil] at hgt
    cases hgt
  obtain ⟨m, hm, hmin⟩ := exists_min_filing _ hne
  have hmem_rows : m ∈ rows := List.mem_of_mem_filter hm
  have hpred := List.of_mem_filter hm
  simp only [Bool.and_eq_true, Bool.not_eq_true', beq_iff_eq] at hpred
  obtain ⟨hdup, hacc⟩ := hpred
  have hin : in_v_duplicate_filing rows m = true := by
    refine in_v_duplicate_filing_iff.mpr ⟨hdup, ?_, ?_⟩
    · rw [hacc]
      exact hgt
    · rw [hacc]
      exact hmin
  refine ⟨m, hm, List.elem_iff.mpr ?_⟩
  exact List.mem_map.mpr ⟨m, List.mem_filter.mpr ⟨hmem_rows, hin⟩, rfl⟩

theorem length_filter_lt_of_mem_not (l : List FilingRow)
    (q : FilingRow → Bool) (x : FilingRow) (hx : x ∈ l) (hqx : q x = false) :
    (l.filter q).length < l.length := by
  induction l with
  | nil => cases hx
  | cons y ys ih =>
      rcases List.mem_cons.mp hx with rfl | hx'
      · rw [List.filter_cons, hqx]
        simp only [Bool.false_eq_true, if_false, List.length_cons]
        exact Nat.lt_succ_of_le (List.length_filter_le q ys)
      · rw [List.filter_cons]
        split
        · simpa using ih hx'
        · exact Nat.lt_succ_of_lt (ih hx')

/-- C5 amended: duplicate tagging is idempotent on the states the engine
normally reaches — whenever every untagged accession group has at most
two members, a second run of the tagger changes nothing.  (In general a
single run tags only the smallest id of each untagged group, so a group
of three or more untagged duplicates needs one run per extra member —
see the counterexample.) -/
theorem duplicate_tagging_idempotent_on_small_groups (rows : List FilingRow)
    (files : List FileRow)
    (h2 : ∀ a, (untaggedWith rows a).length ≤ 2) :
    detect_and_tag_duplicates (detect_and_tag_duplicates rows files).1
        (detect_and_tag_duplicates rows files).2 =
      detect_and_tag_duplicates rows files := by
  have huntag : ∀ a, untaggedWith (detect_and_tag_duplicates rows files).1 a =
      (untaggedWith rows a).filter
        fun r => !(v_duplicate_filing rows).contains r.filing_id :=
    fun a => untagged_map_tag rows (v_duplicate_filing rows) a
  have hsmall : ∀ a,
      (untaggedWith (detect_and_tag_duplicates rows files).1 a).length ≤ 1 := by
    intro a
    rw [huntag a]
    rcases Nat.lt_or_ge 1 (untaggedWith rows a).length with hgt | hle
    · obtain ⟨m, hm, hc⟩ := min_of_group_tagged rows a hgt
      have hlt := length_filter_lt_of_mem_not (untaggedWith rows a)
        (fun r => !(v_duplicate_filing rows).contains r.filing_id) m hm
        (by simpa using hc)
      have := h2 a
      omega
    · exact le_trans (List.length_filter_le _ _) hle
  have hview : v_duplicate_filing (detect_and_tag_duplicates rows files).1 =
      [] := by
    rw [v_duplicate_filing]
    rw [List.map_eq_nil_iff, List.filter_eq_nil_iff]
    intro r hr hin
    obtain ⟨-, hcount, -⟩ := in_v_duplicate_filing_iff.mp hin
    have := hsmall r.accession_number
    omega
  rw [detect_and_tag_duplicates, hview]
  simp

/-- Witness for C5 on a concrete store whose only duplicate group has two
untagged members: the second tagger run changes nothing. -/
theorem duplicate_tagging_idempotent_on_small_groups_witness :
    detect_and_tag_duplicates
        (detect_and_tag_duplicates [⟨1, "A", false⟩, ⟨2, "A", false⟩]
          [⟨1001, 1, false⟩]).1
        (detect_and_tag_duplicates [⟨1, "A", false⟩, ⟨2, "A", false⟩]
          [⟨1001, 1, false⟩]).2 =
      detect_and_tag_duplicates [⟨1, "A", false⟩, ⟨2, "A", false⟩]
        [⟨1001, 1, false⟩] :=
  duplicate_tagging_idempotent_on_small_groups
    [⟨1, "A", false⟩, ⟨2, "A", false⟩] [⟨1001, 1, false⟩]
    (fun a => le_trans (List.length_filter_le _ _) (by decide))

/-- Witness for C7 with a concrete date parser: the example query composes
to the date filter ANDed with the two-way OR name filter, and the
unparseable date "nope" raises the bad-search-parameter exception. -/
theorem search_and_or_composition_witness :
    search_filings (D := Nat)
        (fun str => if str = "2022-01-01" then some 0
          else if str = "2022-03-05" then some 63 else none)
        (fun d => d + 1) (fun l => l) "sqlite"
        { filing_system := "sec"
          publication_date_from := some "2022-01-01"
          filer_name := some "acme,globex" } =
      Except.ok ⟨"sec",
        [SFilter.date_ge SCol.pub_date_col 0,
          SFilter.or_like_lower SCol.filer_name_col ["acme", "globex"]],
        [], false, some 100⟩ ∧
    search_filings (D := Nat)
        (fun str => if str = "2022-01-01" then some 0
          else if str = "2022-03-05" then some 63 else none)
        (fun d => d + 1) (fun l => l) "sqlite"
        { filing_system := "sec", publication_date_from := some "nope" } =
      Except.error (XErr.badSearchParam
        "param publication_date_from must be a valid date in formate 2022-10-21") := by
  have h := search_and_or_composition (D := Nat)
    (fun str => if str = "2022-01-01" then some 0
      else if str = "2022-03-05" then some 63 else none)
    (fun d => d + 1) (fun l => l) 0 63 "nope" rfl rfl rfl
  exact ⟨h.1, h.2.2.2.2⟩

/-- C9 amended: in SEC searches the industry criteria interact as follows:
`industry_code_tree` supersedes an explicit `industry_code` (the code list
is ignored with a warning when the tree parameter is present, and the
filter is the tree expansion); `industry_code` alone yields the explicit
code filter; `industry_name` alone yields **no** filter at all — its
guard compares `industry_code_tree` to the `NotImplemented` sentinel,
which an argument of type `str | None` never is, so the free-text branch
is dead code; and `industry_name` next to `industry_code` is ignored with
a warning. -/
theorem industry_precedence_amended {D : Type} [LinearOrder D]
    (parse_date : String → Option D) (add_one_day : D → D)
    (industry_tree : List Int → List Int) (product s c t : String)
    (vs vt : List Int)
    (hc : parse_int_list c = Except.ok vs)
    (ht : parse_int_list t = Except.ok vt) :
    (search_filings parse_date add_one_day industry_tree product
        { filing_system := "sec", industry_name := some s } =
      Except.ok ⟨"sec", [], [], false, some 100⟩) ∧
    (search_filings parse_date add_one_day industry_tree product
        { filing_system := "sec", industry_code := some c } =
      Except.ok ⟨"sec", [SFilter.sic_in vs], [], false, some 100⟩) ∧
    (search_filings parse_date add_one_day industry_tree product
        { filing_system := "sec", industry_code := some c,
          industry_code_tree := some t } =
      Except.ok ⟨"sec", [SFilter.sic_in (industry_tree vt)],
        [SWarning.industry_code_ignored], false, some 100⟩) ∧
    (search_filings parse_date add_one_day industry_tree product
        { filing_system := "sec", industry_code := some c,
          industry_name := some s } =
      Except.ok ⟨"sec", [SFilter.sic_in vs],
        [SWarning.industry_name_ignored], false, some 100⟩) := by
  refine ⟨rfl, ?_, ?_, ?_⟩ <;>
    simp [search_filings, date_ge_filter, date_lt_filter, check_date,
      in_filter, lower_in_filter, industry_code_part, industry_name_part,
      industry_tree_part, country_alpha2_part, country_name_part,
      form_type_part, like_filter, ticker_part, apply_random_limit,
      schema_lookup, truthy_limit, str_lower, hc, ht,
      is_sentinel_not_implemented] <;> rfl

/-- Witness for C9 at concrete inputs: code "100" alone filters on the
explicit code list; with tree "200" also supplied the tree expansion
(here appending 999) wins and the code list is warned-ignored. -/
theorem industry_precedence_amended_witness :
    search_filings (D := Nat) (fun _ => none) (fun d => d + 1)
        (fun l => l ++ [999]) "sqlite"
        { filing_system := "sec", industry_code := some "100" } =
      Except.ok ⟨"sec", [SFilter.sic_in [100]], [], false, some 100⟩ ∧
    search_filings (D := Nat) (fun _ => none) (fun d => d + 1)
        (fun l => l ++ [999]) "sqlite"
        { filing_system := "sec", industry_code := some "100",
          industry_name := some "pharma" } =
      Except.ok ⟨"sec", [SFilter.sic_in [100]],
        [SWarning.industry_name_ignored], false, some 100⟩ := by
  have h := industry_precedence_amended (D := Nat) (fun _ => none)
    (fun d => d + 1) (fun l => l ++ [999]) "sqlite" "pharma" "100" "200"
    [100] [200] rfl rfl
  exact ⟨h.2.1, h.2.2.2⟩

/-- C10 amended: a `filing_system` whose lowercased value is not "sec" or
"esef" raises the bad-search-parameter exception before any query is
composed; exactly "sec" or "esef" selects that schema; but a value that
lowercases to a supported name without being exactly equal to it — such
as "SEC" — passes the validation and then fails the schema dictionary
lookup with `KeyError` instead of the bad-search-parameter exception. -/
theorem filing_system_validation_amended {D : Type} [LinearOrder D]
    (parse_date : String → Option D) (add_one_day : D → D)
    (industry_tree : List Int → List Int) (product fs : String) :
    ((str_lower fs ≠ "esef" ∧ str_lower fs ≠ "sec") →
      search_filings parse_date add_one_day industry_tree product
          { filing_system := fs } =
        Except.error (XErr.badSearchParam
          "filing_system must be one of `esef` or `sec`")) ∧
    (search_filings parse_date add_one_day industry_tree product
        { filing_system := "sec" } =
      Except.ok ⟨"sec", [], [], false, some 100⟩) ∧
    (search_filings parse_date add_one_day industry_tree product
        { filing_system := "esef" } =
      Except.ok ⟨"esef", [], [], false, some 100⟩) ∧
    (((str_lower fs = "esef" ∨ str_lower fs = "sec") ∧ fs ≠ "esef" ∧
        fs ≠ "sec") →
      search_filings parse_date add_one_day industry_tree product
          { filing_system := fs } = Except.error XErr.keyError) := by
  refine ⟨fun h => ?_, rfl, rfl, fun h => ?_⟩
  · simp [search_filings, h.1, h.2]
    rfl
  · obtain ⟨hor, hne1, hne2⟩ := h
    have hs : schema_lookup fs = Except.error XErr.keyError := by
      unfold schema_lookup
      split
      all_goals first
        | rfl
        | exact absurd rfl hne1
        | exact absurd rfl hne2
    rcases hor with h | h <;> simp [search_filings, h, hs] <;> rfl

/-- Witness for C10 at the concrete value "SEC": the call ends in
`KeyError`, not the bad-search-parameter exception. -/
theorem filing_system_validation_amended_witness :
    search_filings (D := Nat) (fun _ => none) (fun d => d + 1) (fun l => l)
        "sqlite" { filing_system := "SEC" } = Except.error XErr.keyError := by
  have h := filing_system_validation_amended (D := Nat) (fun _ => none)
    (fun d => d + 1) (fun l => l) "sqlite" "SEC"
  exact h.2.2.2 ⟨Or.inr (by decide), by decide, by decide⟩

end XbrlIdx
